import Mathlib

/-!
Verification development for the traffic-simulator repository.

The embedding covers:
* the per-frame vehicle kinematics of the render loop in
  TrafficSimulator.tsx (position step, boundary bounce, mesh updates);
* the geographic-to-scene coordinate conversion latLngToWorld;
* the roads API route (POST and GET handlers, bounds validation,
  Overpass normalization) and the road style lookup tables;
* the client-side fetch handler (layer replacement, error alert).

Real-valued kinematics use Lean reals with Real.cos / Real.sin standing
for the host Math.cos / Math.sin; exact rational arithmetic stands in for
the remaining numeric values (the scale factor 0.1 is the rational 1/10).
-/

namespace TrafficSim

/-! ### Vehicle kinematics (render loop of TrafficSimulator.tsx) -/

/-- A simulated vehicle: geographic position, speed scalar, heading angle
(field names follow the Vehicle interface of the source). -/
structure Vehicle where
  lat : ℝ
  lng : ℝ
  speed : ℝ
  direction : ℝ

/-- Current viewport bounds as returned by map.getBounds(). -/
structure MapBounds where
  north : ℝ
  south : ℝ
  east : ℝ
  west : ℝ

/-- The boundary test of the render loop: the position lies outside the
viewport on at least one of the four edges (strict comparisons, exactly as
in the source). -/
def outOfBounds (b : MapBounds) (lat lng : ℝ) : Prop :=
  lat > b.north ∨ lat < b.south ∨ lng > b.east ∨ lng < b.west

/-- Everything one iteration of the render loop does to one vehicle:
the updated vehicle record plus the mesh position and mesh rotation.y
written during that iteration. -/
structure FrameResult where
  vehicle : Vehicle
  meshPos : ℝ × ℝ
  rotationY : ℝ

open Classical in
/-- One iteration of the render-loop body for one vehicle, in source
order: (1)–(2) kinematic position step, then mesh position is set from the
re-projected new position and mesh rotation.y is set from the current
direction, then the boundary check flips direction by adding π.
projFn stands for the latLngToWorld closure over the current map. -/
noncomputable def renderFrame (projFn : ℝ → ℝ → ℝ × ℝ) (b : MapBounds)
    (v : Vehicle) : FrameResult :=
  let lat1 := v.lat + Real.cos v.direction * v.speed
  let lng1 := v.lng + Real.sin v.direction * v.speed
  let pos := projFn lat1 lng1
  let rot := v.direction
  let dir1 := if outOfBounds b lat1 lng1 then v.direction + Real.pi else v.direction
  ⟨⟨lat1, lng1, v.speed, dir1⟩, pos, rot⟩

/-- N successive iterations of the render loop applied to one vehicle
(the map bounds are unchanged across the N frames). -/
noncomputable def runFrames (projFn : ℝ → ℝ → ℝ × ℝ) (b : MapBounds) :
    ℕ → Vehicle → Vehicle
  | 0, v => v
  | n + 1, v => runFrames projFn b n (renderFrame projFn b v).vehicle

/-! ### Geographic-to-scene conversion (latLngToWorld) -/

/-- A pixel point in the map container, as produced by
latLngToContainerPoint / getSize. -/
structure ScreenPoint where
  x : ℚ
  y : ℚ
deriving DecidableEq

/-- A Babylon scene coordinate. -/
structure Vec3 where
  x : ℚ
  y : ℚ
  z : ℚ
deriving DecidableEq

/-- latLngToWorld from the source: project to container pixels, subtract
the container midpoint, scale by 0.1 (with the screen y axis negated into
scene z); scene y is the constant 0. -/
def latLngToWorld (projFn : ℚ → ℚ → ScreenPoint) (containerSize : ScreenPoint)
    (lat lng : ℚ) : Vec3 :=
  let point := projFn lat lng
  ⟨(point.x - containerSize.x / 2) * (1 / 10), 0,
    -(point.y - containerSize.y / 2) * (1 / 10)⟩

/-- Modelled from the spec wording of 4.1 for comparison with the source
definition: project the geographic point, center the pixel coordinates on
the viewport's screen midpoint, scale by a fixed per-axis constant to
obtain scene X/Z, keep Y at zero. -/
def specLatLngToWorld (projFn : ℚ → ℚ → ScreenPoint) (containerSize : ScreenPoint)
    (lat lng : ℚ) : Vec3 :=
  let p := projFn lat lng
  let centeredX := p.x - containerSize.x / 2
  let centeredY := p.y - containerSize.y / 2
  ⟨centeredX * (1 / 10), 0, centeredY * (-1 / 10)⟩

/-! ### Backend: /api/roads route (Overpass normalization, POST and GET) -/

/-- One element of the Overpass response; geometry nodes are (lat, lon)
pairs.  tags and geometry are optional, as in the OverpassElement
interface of the route. -/
structure OverpassElement where
  type : String
  id : ℕ
  tags : Option (List (String × String))
  geometry : Option (List (ℚ × ℚ))
deriving DecidableEq

/-- A normalized road record as produced by the route and consumed by the
client (the RoadData interface). -/
structure RoadData where
  id : ℕ
  type : String
  name : String
  coordinates : List (ℚ × ℚ)
  tags : List (String × String)
deriving DecidableEq

/-- JavaScript string-or-default: x || d, where the empty string is falsy
and a missing value falls back to the default. -/
def jsStringOr (x : Option String) (d : String) : String :=
  match x with
  | none => d
  | some s => if s = "" then d else s

/-- The per-way mapping of the route: id, highway tag (or "unknown"), name
(or ""), geometry points in order, tag map (or empty). -/
def toRoadData (way : OverpassElement) : RoadData :=
  { id := way.id
    type := jsStringOr (way.tags.bind (List.lookup "highway")) "unknown"
    name := jsStringOr (way.tags.bind (List.lookup "name")) ""
    coordinates := (way.geometry.map (fun g => g.map (fun node => (node.1, node.2)))).getD []
    tags := way.tags.getD [] }

/-- The roads pipeline of the route: keep elements that are ways with a
geometry field (an empty geometry list still passes, as in JavaScript
truthiness), then normalize each. -/
def normalizeRoads (elements : List OverpassElement) : List RoadData :=
  (elements.filter (fun el => el.type == "way" && el.geometry.isSome)).map toRoadData

/-- Response body shapes emitted by the route: the 400 body carries only
an error string, the 500 body carries error plus details, the 200 body
carries the success payload. -/
inductive ApiBody where
  | errorMsg (error : String)
  | errorDetails (error details : String)
  | success (north south east west : ℚ) (roadCount : ℕ) (roads : List RoadData)
deriving DecidableEq

/-- An HTTP response of the route: status code and JSON body. -/
structure ApiResponse where
  status : ℕ
  body : ApiBody
deriving DecidableEq

/-- Outcome of the single upstream Overpass call: a parsed element list,
a non-ok HTTP status, or a network-level failure. -/
inductive UpstreamResult where
  | ok (elements : List OverpassElement)
  | httpError (status : ℕ)
  | networkError (message : String)
deriving DecidableEq

/-- POST 400 message for missing bounds values. -/
def missingBoundsMsg : String := "모든 bounds 값이 필요합니다 (north, south, east, west)"

/-- POST 400 message for inverted bounds. -/
def invalidBoundsMsg : String := "잘못된 bounds 값입니다"

/-- 500 error field on upstream failure. -/
def upstreamFailMsg : String := "OSM 도로 정보를 가져오는데 실패했습니다"

/-- GET 400 message for missing query parameters. -/
def getMissingMsg : String := "Query parameters가 필요합니다: north, south, east, west"

/-- Message of the error thrown when the Overpass call returns non-ok. -/
def overpassThrownMsg (status : ℕ) : String :=
  "Overpass API 호출 실패: " ++ toString status

/-- JavaScript numeric falsiness of a bounds value as used by the guards
(!north etc.): the value is absent (undefined, or an unparsable NaN in the
GET handler) or equal to 0. -/
def jsFalsyNum (x : Option ℚ) : Bool := x.getD 0 == 0

/-- The part of the POST handler after validation: issue the single
Overpass call and either normalize its elements into the 200 payload or
map the thrown failure to the 500 body.  No retry: exactly one upstream
result is consumed. -/
def processUpstream (north south east west : ℚ) (u : UpstreamResult) : ApiResponse :=
  match u with
  | .ok elements =>
      let roads := normalizeRoads elements
      ⟨200, .success north south east west roads.length roads⟩
  | .httpError status => ⟨500, .errorDetails upstreamFailMsg (overpassThrownMsg status)⟩
  | .networkError message => ⟨500, .errorDetails upstreamFailMsg message⟩

/-- The POST /api/roads handler: reject with 400 when any bounds value is
falsy (absent or zero), then with 400 when north ≤ south or east ≤ west,
and only otherwise run the upstream query. -/
def postHandler (north south east west : Option ℚ) (u : UpstreamResult) : ApiResponse :=
  if jsFalsyNum north || jsFalsyNum south || jsFalsyNum east || jsFalsyNum west then
    ⟨400, ApiBody.errorMsg missingBoundsMsg⟩
  else
    let n := north.getD 0
    let s := south.getD 0
    let e := east.getD 0
    let w := west.getD 0
    if n ≤ s ∨ e ≤ w then ⟨400, ApiBody.errorMsg invalidBoundsMsg⟩
    else processUpstream n s e w u

/-- The GET /api/roads handler: parse the four query parameters (a missing
or unparsable parameter becomes a falsy value), reject with its own 400
message when any is falsy, otherwise build a POST body from the parsed
numbers and delegate to the POST handler. -/
def getHandler (north south east west : Option ℚ) (u : UpstreamResult) : ApiResponse :=
  if jsFalsyNum north || jsFalsyNum south || jsFalsyNum east || jsFalsyNum west then
    ⟨400, ApiBody.errorMsg getMissingMsg⟩
  else
    postHandler (some (north.getD 0)) (some (south.getD 0))
      (some (east.getD 0)) (some (west.getD 0)) u

/-! ### Road style lookup tables -/

/-- A Leaflet polyline style: color, weight, opacity. -/
structure RoadStyle where
  color : String
  weight : ℕ
  opacity : ℚ
deriving DecidableEq

/-- The styles table of getRoadStyle inside handleFetchRoads. -/
def roadStyles : List (String × RoadStyle) :=
  [("motorway", ⟨"#e66465", 6, 8 / 10⟩),
   ("trunk", ⟨"#f93", 5, 8 / 10⟩),
   ("primary", ⟨"#fcd53c", 4, 8 / 10⟩),
   ("secondary", ⟨"#9ed485", 3, 8 / 10⟩),
   ("tertiary", ⟨"#87ceeb", 2, 8 / 10⟩),
   ("residential", ⟨"#cccccc", 2, 8 / 10⟩),
   ("service", ⟨"#e0e0e0", 1, 8 / 10⟩),
   ("living_street", ⟨"#d3d3d3", 1, 8 / 10⟩),
   ("unclassified", ⟨"#b8b8b8", 1, 8 / 10⟩)]

/-- getRoadStyle: table lookup by road type with the default style for
anything not in the table. -/
def getRoadStyle (roadType : String) : RoadStyle :=
  (roadStyles.lookup roadType).getD ⟨"#999999", 1, 8 / 10⟩

/-- The colorMap of getRoadColor in roadApi. -/
def colorMap : List (String × String) :=
  [("motorway", "#e66465"),
   ("trunk", "#f93"),
   ("primary", "#fcd53c"),
   ("secondary", "#9ed485"),
   ("tertiary", "#87ceeb"),
   ("residential", "#cccccc"),
   ("service", "#e0e0e0"),
   ("living_street", "#d3d3d3"),
   ("unclassified", "#b8b8b8"),
   ("unknown", "#999999")]

/-- getRoadColor: lookup with fallback to the table's own "unknown"
entry. -/
def getRoadColor (roadType : String) : String :=
  match colorMap.lookup roadType with
  | some c => c
  | none => (colorMap.lookup "unknown").getD ""

/-- The widthMap of getRoadWidth in roadApi. -/
def widthMap : List (String × ℕ) :=
  [("motorway", 6), ("trunk", 5), ("primary", 4), ("secondary", 3),
   ("tertiary", 2), ("residential", 2), ("service", 1),
   ("living_street", 1), ("unclassified", 1), ("unknown", 1)]

/-- getRoadWidth: lookup with fallback to the table's own "unknown"
entry. -/
def getRoadWidth (roadType : String) : ℕ :=
  match widthMap.lookup roadType with
  | some w => w
  | none => (widthMap.lookup "unknown").getD 0

/-! ### Client-side fetch handler (handleFetchRoads) -/

/-- A drawn Leaflet polyline: the positions it was built from and its
style. -/
structure Polyline where
  positions : List (ℚ × ℚ)
  style : RoadStyle
deriving DecidableEq

/-- The polyline built for one road record. -/
def mkPolyline (r : RoadData) : Polyline :=
  ⟨r.coordinates, getRoadStyle r.type⟩

/-- The roads of a response that actually get a polyline: coordinates
present with length > 1 (the source guard road.coordinates &&
road.coordinates.length > 1). -/
def drawnRoads (roads : List RoadData) : List RoadData :=
  roads.filter (fun r => r.coordinates.length > 1)

/-- The polylines added to the new layer group for a response. -/
def drawPolylines (roads : List RoadData) : List Polyline :=
  (drawnRoads roads).map mkPolyline

/-- A map mutation performed by handleFetchRoads, for ordering claims. -/
inductive MapOp where
  | removeLayer (layer : List Polyline)
  | addLayer (layer : List Polyline)
deriving DecidableEq

/-- Client state touched by handleFetchRoads: the layer groups currently
on the map, the remembered roads layer group, the last road data, and a
count of alerts shown. -/
structure ClientState where
  mapLayers : List (List Polyline)
  roadsLayerGroup : Option (List Polyline)
  roadData : List RoadData
  alerts : ℕ
deriving DecidableEq

/-- State before the first fetch. -/
def initialClientState : ClientState := ⟨[], none, [], 0⟩

/-- The completion of one fetch in handleFetchRoads, with the list of map
mutations it performs in order.  On a success response: store the roads,
remove the previously remembered layer group from the map, build the new
layer group from the drawable roads, add it to the map and remember it.
On any failure (a thrown error from a non-ok response or from the
network): show exactly one alert and leave the display untouched. -/
def clientFetchStep (st : ClientState) (resp : ApiResponse) : ClientState × List MapOp :=
  match resp with
  | ⟨200, ApiBody.success _ _ _ _ _ roads⟩ =>
      let removeOps : List MapOp :=
        match st.roadsLayerGroup with
        | some g => [MapOp.removeLayer g]
        | none => []
      let layersAfterRemove :=
        match st.roadsLayerGroup with
        | some g => st.mapLayers.erase g
        | none => st.mapLayers
      let newLayer := drawPolylines roads
      (⟨layersAfterRemove ++ [newLayer], some newLayer, roads, st.alerts⟩,
        removeOps ++ [MapOp.addLayer newLayer])
  | _ => (⟨st.mapLayers, st.roadsLayerGroup, st.roadData, st.alerts + 1⟩, [])

/-! ### Helper lemmas on the render loop -/

lemma renderFrame_lat (projFn : ℝ → ℝ → ℝ × ℝ) (b : MapBounds) (v : Vehicle) :
    (renderFrame projFn b v).vehicle.lat = v.lat + Real.cos v.direction * v.speed := rfl

lemma renderFrame_lng (projFn : ℝ → ℝ → ℝ × ℝ) (b : MapBounds) (v : Vehicle) :
    (renderFrame projFn b v).vehicle.lng = v.lng + Real.sin v.direction * v.speed := rfl

lemma renderFrame_speed (projFn : ℝ → ℝ → ℝ × ℝ) (b : MapBounds) (v : Vehicle) :
    (renderFrame projFn b v).vehicle.speed = v.speed := rfl

lemma renderFrame_rotationY (projFn : ℝ → ℝ → ℝ × ℝ) (b : MapBounds) (v : Vehicle) :
    (renderFrame projFn b v).rotationY = v.direction := rfl

lemma renderFrame_meshPos (projFn : ℝ → ℝ → ℝ × ℝ) (b : MapBounds) (v : Vehicle) :
    (renderFrame projFn b v).meshPos =
      projFn (v.lat + Real.cos v.direction * v.speed)
        (v.lng + Real.sin v.direction * v.speed) := rfl

open Classical in
lemma renderFrame_direction (projFn : ℝ → ℝ → ℝ × ℝ) (b : MapBounds) (v : Vehicle) :
    (renderFrame projFn b v).vehicle.direction =
      if outOfBounds b (v.lat + Real.cos v.direction * v.speed)
          (v.lng + Real.sin v.direction * v.speed)
        then v.direction + Real.pi else v.direction := rfl

lemma renderFrame_direction_of_out (projFn : ℝ → ℝ → ℝ × ℝ) (b : MapBounds) (v : Vehicle)
    (h : outOfBounds b (v.lat + Real.cos v.direction * v.speed)
      (v.lng + Real.sin v.direction * v.speed)) :
    (renderFrame projFn b v).vehicle.direction = v.direction + Real.pi := by
  rw [renderFrame_direction, if_pos h]

lemma renderFrame_direction_of_in (projFn : ℝ → ℝ → ℝ × ℝ) (b : MapBounds) (v : Vehicle)
    (h : ¬ outOfBounds b (v.lat + Real.cos v.direction * v.speed)
      (v.lng + Real.sin v.direction * v.speed)) :
    (renderFrame projFn b v).vehicle.direction = v.direction := by
  rw [renderFrame_direction, if_neg h]

lemma renderFrame_vehicle_of_in (projFn : ℝ → ℝ → ℝ × ℝ) (b : MapBounds) (v : Vehicle)
    (h : ¬ outOfBounds b (v.lat + Real.cos v.direction * v.speed)
      (v.lng + Real.sin v.direction * v.speed)) :
    (renderFrame projFn b v).vehicle =
      ⟨v.lat + Real.cos v.direction * v.speed,
       v.lng + Real.sin v.direction * v.speed, v.speed, v.direction⟩ := by
  have hd := renderFrame_direction_of_in projFn b v h
  cases hv : (renderFrame projFn b v).vehicle with
  | mk lat lng speed direction =>
    have hlat := renderFrame_lat projFn b v
    have hlng := renderFrame_lng projFn b v
    have hspeed := renderFrame_speed projFn b v
    rw [hv] at hlat hlng hspeed hd
    simp only at hlat hlng hspeed hd
    simp [hlat, hlng, hspeed, hd]

lemma runFrames_succ (projFn : ℝ → ℝ → ℝ × ℝ) (b : MapBounds) (n : ℕ) (v : Vehicle) :
    runFrames projFn b (n + 1) v = runFrames projFn b n (renderFrame projFn b v).vehicle := rfl

/-! ### Claim theorems: render-loop kinematics -/

/-- C1: each render frame advances the position by exactly
lat + cos(direction) * speed and lng + sin(direction) * speed, leaving
direction and speed unchanged by the step itself, so after N frames in
which no boundary crossing occurs the position is the initial one plus
N times the constant per-frame displacement. -/
theorem kinematics_closed_form (projFn : ℝ → ℝ → ℝ × ℝ) (b : MapBounds) (v : Vehicle) (N : ℕ)
    (h : ∀ k < N, ¬ outOfBounds b (runFrames projFn b (k + 1) v).lat
      (runFrames projFn b (k + 1) v).lng) :
    runFrames projFn b N v =
      ⟨v.lat + N * (Real.cos v.direction * v.speed),
       v.lng + N * (Real.sin v.direction * v.speed), v.speed, v.direction⟩ := by
  induction N generalizing v with
  | zero => simp [runFrames]
  | succ n ih =>
    have h0 := h 0 (Nat.succ_pos n)
    rw [show (0 : ℕ) + 1 = 1 from rfl, show runFrames projFn b 1 v =
      (renderFrame projFn b v).vehicle from rfl] at h0
    have hlat := renderFrame_lat projFn b v
    have hlng := renderFrame_lng projFn b v
    rw [hlat, hlng] at h0
    have hveh := renderFrame_vehicle_of_in projFn b v h0
    have h' : ∀ k < n, ¬ outOfBounds b
        (runFrames projFn b (k + 1) (⟨v.lat + Real.cos v.direction * v.speed,
          v.lng + Real.sin v.direction * v.speed, v.speed, v.direction⟩ : Vehicle)).lat
        (runFrames projFn b (k + 1) (⟨v.lat + Real.cos v.direction * v.speed,
          v.lng + Real.sin v.direction * v.speed, v.speed, v.direction⟩ : Vehicle)).lng := by
      intro k hk
      have hh := h (k + 1) (by omega)
      rwa [runFrames_succ projFn b (k + 1) v, hveh] at hh
    rw [runFrames_succ, hveh, ih _ h']
    simp only [Vehicle.mk.injEq, and_true]
    exact ⟨by push_cast; ring, by push_cast; ring⟩

/-- Witness for C1: one frame at speed 0 and direction 0 inside wide
bounds realizes the closed form with all hypotheses discharged. -/
theorem kinematics_closed_form_witness :
    runFrames (fun _ _ => ((0 : ℝ), (0 : ℝ))) ⟨1, -1, 1, -1⟩ 1 ⟨0, 0, 0, 0⟩ =
      ⟨0 + (1 : ℕ) * (Real.cos 0 * 0), 0 + (1 : ℕ) * (Real.sin 0 * 0), 0, 0⟩ :=
  kinematics_closed_form (fun _ _ => ((0 : ℝ), (0 : ℝ))) ⟨1, -1, 1, -1⟩ ⟨0, 0, 0, 0⟩ 1
    (by
      intro k hk
      interval_cases k
      rw [show (0 : ℕ) + 1 = 1 from rfl,
        show runFrames (fun _ _ => ((0 : ℝ), (0 : ℝ))) ⟨1, -1, 1, -1⟩ 1 ⟨0, 0, 0, 0⟩ =
          (renderFrame (fun _ _ => ((0 : ℝ), (0 : ℝ))) ⟨1, -1, 1, -1⟩ ⟨0, 0, 0, 0⟩).vehicle
          from rfl,
        renderFrame_lat, renderFrame_lng]
      simp [outOfBounds])

/-- C2: when the updated position falls outside the viewport on any of the
four edges the direction gains exactly π on that step while the position
update is still applied; when it stays inside, the direction is
unchanged. -/
theorem bounce_step (projFn : ℝ → ℝ → ℝ × ℝ) (b : MapBounds) (v : Vehicle) :
    (renderFrame projFn b v).vehicle.lat = v.lat + Real.cos v.direction * v.speed ∧
    (renderFrame projFn b v).vehicle.lng = v.lng + Real.sin v.direction * v.speed ∧
    (outOfBounds b (v.lat + Real.cos v.direction * v.speed)
        (v.lng + Real.sin v.direction * v.speed) →
      (renderFrame projFn b v).vehicle.direction = v.direction + Real.pi) ∧
    (¬ outOfBounds b (v.lat + Real.cos v.direction * v.speed)
        (v.lng + Real.sin v.direction * v.speed) →
      (renderFrame projFn b v).vehicle.direction = v.direction) :=
  ⟨rfl, rfl, renderFrame_direction_of_out projFn b v,
    renderFrame_direction_of_in projFn b v⟩

/-- Witness for C2: a vehicle whose step leaves the viewport to the north
gets direction 0 + π on that frame. -/
theorem bounce_step_witness :
    (renderFrame (fun _ _ => ((0 : ℝ), (0 : ℝ))) ⟨1 / 2, -1, 1, -1⟩
      ⟨0, 0, 1, 0⟩).vehicle.direction = 0 + Real.pi :=
  (bounce_step (fun _ _ => ((0 : ℝ), (0 : ℝ))) ⟨1 / 2, -1, 1, -1⟩ ⟨0, 0, 1, 0⟩).2.2.1
    (by simp [outOfBounds]; norm_num)

/-- C9 counterexample: on a frame where the bounce fires, the rotation
written to the mesh is not the post-bounce direction — the source sets
rotation.y before the boundary check, so it is the pre-bounce heading. -/
theorem rotation_precedes_bounce_cex :
    (renderFrame (fun _ _ => ((0 : ℝ), (0 : ℝ))) ⟨1 / 2, -1, 1, -1⟩
        ⟨0, 0, 1, 0⟩).rotationY ≠
      (renderFrame (fun _ _ => ((0 : ℝ), (0 : ℝ))) ⟨1 / 2, -1, 1, -1⟩
        ⟨0, 0, 1, 0⟩).vehicle.direction := by
  have hout : outOfBounds ⟨1 / 2, -1, 1, -1⟩
      ((0 : ℝ) + Real.cos 0 * 1) ((0 : ℝ) + Real.sin 0 * 1) := by
    simp [outOfBounds]; norm_num
  rw [renderFrame_rotationY,
    renderFrame_direction_of_out (fun _ _ => ((0 : ℝ), (0 : ℝ))) _ _ hout]
  intro hcontra
  have := Real.pi_pos
  simp at hcontra
  linarith [hcontra]

/-- C9 amended: the per-frame order is position update, then re-projection
of the updated position and rotation set to the pre-bounce heading, then
the bounce check; so on a bounce frame the rotation written equals the
original heading and the post-bounce heading (original plus π) is stored
for the next frame. -/
theorem frame_order_amended (projFn : ℝ → ℝ → ℝ × ℝ) (b : MapBounds) (v : Vehicle) :
    (renderFrame projFn b v).rotationY = v.direction ∧
    (renderFrame projFn b v).meshPos =
      projFn (v.lat + Real.cos v.direction * v.speed)
        (v.lng + Real.sin v.direction * v.speed) ∧
    (outOfBounds b (v.lat + Real.cos v.direction * v.speed)
        (v.lng + Real.sin v.direction * v.speed) →
      (renderFrame projFn b v).vehicle.direction = v.direction + Real.pi) :=
  ⟨rfl, rfl, renderFrame_direction_of_out projFn b v⟩

/-- Witness for C9 amended: a bounce frame at a concrete input stores
direction 0 + π while the rotation written that frame was 0. -/
theorem frame_order_amended_witness :
    (renderFrame (fun _ _ => ((0 : ℝ), (0 : ℝ))) ⟨1 / 4, -2, 2, -2⟩
      ⟨0, 0, 1, 0⟩).vehicle.direction = 0 + Real.pi :=
  (frame_order_amended (fun _ _ => ((0 : ℝ), (0 : ℝ))) ⟨1 / 4, -2, 2, -2⟩ ⟨0, 0, 1, 0⟩).2.2
    (by simp [outOfBounds]; norm_num)

/-! ### Helper lemmas on the API handlers -/

lemma jsFalsyNum_false_iff (x : Option ℚ) :
    jsFalsyNum x = false ↔ x = some (x.getD 0) ∧ x.getD 0 ≠ 0 := by
  cases x with
  | none => simp [jsFalsyNum]
  | some q => simp [jsFalsyNum]

lemma postHandler_valid (n s e w : ℚ) (u : UpstreamResult)
    (hn : n ≠ 0) (hs : s ≠ 0) (he : e ≠ 0) (hw : w ≠ 0) (h1 : s < n) (h2 : w < e) :
    postHandler (some n) (some s) (some e) (some w) u = processUpstream n s e w u := by
  simp [postHandler, jsFalsyNum, hn, hs, he, hw, not_le.mpr h1, not_le.mpr h2]

/-! ### Claim theorems: projection, API, client display -/

/-- C3: the map-to-scene conversion is exactly project, center on the
screen midpoint, scale by a fixed per-axis constant, with scene Y always
0; in particular the viewport's exact center (whose projection is the
screen midpoint) maps to (0, 0, 0). -/
theorem latLngToWorld_spec (projFn : ℚ → ℚ → ScreenPoint) (containerSize : ScreenPoint)
    (lat lng : ℚ) :
    latLngToWorld projFn containerSize lat lng =
      specLatLngToWorld projFn containerSize lat lng ∧
    (latLngToWorld projFn containerSize lat lng).y = 0 ∧
    (projFn lat lng = ⟨containerSize.x / 2, containerSize.y / 2⟩ →
      latLngToWorld projFn containerSize lat lng = ⟨0, 0, 0⟩) := by
  refine ⟨?_, rfl, ?_⟩
  · simp only [latLngToWorld, specLatLngToWorld, Vec3.mk.injEq, and_true, true_and]
    ring
  · intro h
    simp only [latLngToWorld, h, Vec3.mk.injEq, and_true, true_and]
    constructor <;> ring

/-- Witness for C3: a point projecting to the midpoint of an 800 by 600
container lands at the scene origin. -/
theorem latLngToWorld_spec_witness :
    latLngToWorld (fun _ _ => ⟨400, 300⟩) ⟨800, 600⟩ 37 127 = ⟨0, 0, 0⟩ :=
  (latLngToWorld_spec (fun _ _ => ⟨400, 300⟩) ⟨800, 600⟩ 37 127).2.2
    (by simp only [ScreenPoint.mk.injEq]; norm_num)

/-- C4: the POST handler rejects with 400 when any bounds value is absent
or zero and, failing that, when north ≤ south or east ≤ west; only
otherwise does it run the upstream query, so a rejected request never
depends on the upstream.  In particular north=37 with south=38 gives 400,
and omitting west gives 400. -/
theorem roads_post_validation (north south east west : Option ℚ) (u u' : UpstreamResult) :
    ((jsFalsyNum north || jsFalsyNum south || jsFalsyNum east || jsFalsyNum west) = true →
      postHandler north south east west u = ⟨400, ApiBody.errorMsg missingBoundsMsg⟩) ∧
    (∀ n s e w : ℚ, n ≠ 0 → s ≠ 0 → e ≠ 0 → w ≠ 0 → (n ≤ s ∨ e ≤ w) →
      postHandler (some n) (some s) (some e) (some w) u =
        ⟨400, ApiBody.errorMsg invalidBoundsMsg⟩) ∧
    (∀ n s e w : ℚ, n ≠ 0 → s ≠ 0 → e ≠ 0 → w ≠ 0 → s < n → w < e →
      postHandler (some n) (some s) (some e) (some w) u = processUpstream n s e w u) ∧
    ((postHandler north south east west u).status = 400 →
      postHandler north south east west u = postHandler north south east west u') ∧
    postHandler (some 37) (some 38) (some 127) (some 126) u =
      ⟨400, ApiBody.errorMsg invalidBoundsMsg⟩ ∧
    postHandler (some 37) (some 36) (some 127) none u =
      ⟨400, ApiBody.errorMsg missingBoundsMsg⟩ := by
  refine ⟨?_, ?_, ?_, ?_, ?_, ?_⟩
  · intro h
    simp [postHandler, h]
  · intro n s e w hn hs he hw hle
    simp [postHandler, jsFalsyNum, hn, hs, he, hw, hle]
  · intro n s e w hn hs he hw h1 h2
    exact postHandler_valid n s e w u hn hs he hw h1 h2
  · intro h400
    by_cases hf : (jsFalsyNum north || jsFalsyNum south || jsFalsyNum east ||
        jsFalsyNum west) = true
    · simp [postHandler, hf]
    · by_cases hle : north.getD 0 ≤ south.getD 0 ∨ east.getD 0 ≤ west.getD 0
      · simp [postHandler, hf, hle]
      · exfalso
        rw [show postHandler north south east west u = processUpstream (north.getD 0)
            (south.getD 0) (east.getD 0) (west.getD 0) u by
          simp [postHandler, hf, hle]] at h400
        cases u <;> simp [processUpstream] at h400
  · have h38 : (37 : ℚ) ≤ 38 := by norm_num
    simp [postHandler, jsFalsyNum, h38]
  · simp [postHandler, jsFalsyNum]

/-- Witness for C4: the inverted pair north=37, south=38 with valid east
and west yields the 400 invalid-bounds response. -/
theorem roads_post_validation_witness :
    postHandler (some 37) (some 38) (some 127) (some 126) (UpstreamResult.ok []) =
      ⟨400, ApiBody.errorMsg invalidBoundsMsg⟩ :=
  (roads_post_validation (some 37) (some 38) (some 127) (some 126)
      (UpstreamResult.ok []) (UpstreamResult.ok [])).2.1 37 38 127 126
    (by norm_num) (by norm_num) (by norm_num) (by norm_num) (Or.inl (by norm_num))

/-- C5: a way with geometry normalizes to a RoadSegment whose type is its
highway tag (or "unknown"), whose coordinates are its geometry points in
order and whose tags are its tag map; styles come from the fixed lookup
tables with the "unknown" default for unrecognized classes.  The mocked
primary way with two geometry points yields type "primary", two
coordinates, color "#fcd53c" and width 4. -/
theorem normalize_and_style :
    normalizeRoads [⟨"way", 1, some [("highway", "primary")], some [(37, 127), (38, 128)]⟩] =
      [⟨1, "primary", "", [(37, 127), (38, 128)], [("highway", "primary")]⟩] ∧
    ((normalizeRoads [⟨"way", 1, some [("highway", "primary")],
        some [(37, 127), (38, 128)]⟩]).map (fun r => r.coordinates.length) = [2]) ∧
    getRoadColor "primary" = "#fcd53c" ∧
    getRoadWidth "primary" = 4 ∧
    getRoadStyle "primary" = ⟨"#fcd53c", 4, 8 / 10⟩ ∧
    (∀ way : OverpassElement, ∀ g, way.type = "way" → way.geometry = some g →
      (toRoadData way).id = way.id ∧
      (toRoadData way).coordinates = g ∧
      (toRoadData way).tags = way.tags.getD [] ∧
      (way.tags.bind (List.lookup "highway") = none → (toRoadData way).type = "unknown")) ∧
    (∀ t : String, roadStyles.lookup t = none → getRoadStyle t = ⟨"#999999", 1, 8 / 10⟩) ∧
    (∀ t : String, colorMap.lookup t = none → getRoadColor t = "#999999") ∧
    (∀ t : String, widthMap.lookup t = none → getRoadWidth t = 1) := by
  refine ⟨rfl, rfl, rfl, rfl, rfl, ?_, ?_, ?_, ?_⟩
  · intro way g _ hg
    refine ⟨rfl, ?_, rfl, ?_⟩
    · simp [toRoadData, hg]
    · intro hnone
      simp [toRoadData, hnone, jsStringOr]
  · intro t hnone
    simp [getRoadStyle, hnone]
  · intro t hnone
    simp [getRoadColor, hnone]
    rfl
  · intro t hnone
    simp [getRoadWidth, hnone]
    rfl

/-- Witness for C5: the unrecognized class "footway" falls back to the
default unknown style. -/
theorem normalize_and_style_witness :
    getRoadStyle "footway" = ⟨"#999999", 1, 8 / 10⟩ :=
  normalize_and_style.2.2.2.2.2.2.1 "footway" (by decide)

/-- C6: a second successful fetch removes the layer group holding the
first fetch's polylines from the map before adding the new layer group,
and afterwards the map holds only the polylines of the new response. -/
theorem replace_not_merge (n1 s1 e1 w1 n2 s2 e2 w2 : ℚ) (c1 c2 : ℕ)
    (roads1 roads2 : List RoadData) :
    (clientFetchStep
        (clientFetchStep initialClientState ⟨200, ApiBody.success n1 s1 e1 w1 c1 roads1⟩).1
        ⟨200, ApiBody.success n2 s2 e2 w2 c2 roads2⟩).1.mapLayers =
      [drawPolylines roads2] ∧
    (clientFetchStep
        (clientFetchStep initialClientState ⟨200, ApiBody.success n1 s1 e1 w1 c1 roads1⟩).1
        ⟨200, ApiBody.success n2 s2 e2 w2 c2 roads2⟩).2 =
      [MapOp.removeLayer (drawPolylines roads1), MapOp.addLayer (drawPolylines roads2)] ∧
    (clientFetchStep
        (clientFetchStep initialClientState ⟨200, ApiBody.success n1 s1 e1 w1 c1 roads1⟩).1
        ⟨200, ApiBody.success n2 s2 e2 w2 c2 roads2⟩).1.roadsLayerGroup =
      some (drawPolylines roads2) ∧
    (clientFetchStep
        (clientFetchStep initialClientState ⟨200, ApiBody.success n1 s1 e1 w1 c1 roads1⟩).1
        ⟨200, ApiBody.success n2 s2 e2 w2 c2 roads2⟩).1.roadData = roads2 := by
  refine ⟨?_, ?_, rfl, rfl⟩ <;>
    simp [clientFetchStep, initialClientState, List.erase_cons_head]

/-- C7 counterexample: with west equal to 0 both handlers reject with
status 400, but the GET handler's body carries its own error message, so
the full responses differ. -/
theorem get_post_divergence_cex :
    getHandler (some 37) (some 36) (some 127) (some 0) (UpstreamResult.ok []) ≠
      postHandler (some 37) (some 36) (some 127) (some 0) (UpstreamResult.ok []) := by
  decide

/-- C7 amended: GET and POST always agree on the status code, and whenever
all four values are present and non-zero the GET handler delegates and
returns exactly the POST response; in the rejection cases the two bodies
carry different error messages. -/
theorem get_post_equiv_amended (north south east west : Option ℚ) (u : UpstreamResult) :
    (getHandler north south east west u).status =
      (postHandler north south east west u).status ∧
    (north.getD 0 ≠ 0 → south.getD 0 ≠ 0 → east.getD 0 ≠ 0 → west.getD 0 ≠ 0 →
      getHandler north south east west u = postHandler north south east west u) := by
  have hdeleg : (jsFalsyNum north || jsFalsyNum south || jsFalsyNum east ||
      jsFalsyNum west) = false →
      getHandler north south east west u = postHandler north south east west u := by
    intro hf
    simp only [Bool.or_eq_false_iff] at hf
    obtain ⟨⟨⟨hn, hs⟩, he⟩, hw⟩ := hf
    obtain ⟨hn1, _⟩ := (jsFalsyNum_false_iff north).mp hn
    obtain ⟨hs1, _⟩ := (jsFalsyNum_false_iff south).mp hs
    obtain ⟨he1, _⟩ := (jsFalsyNum_false_iff east).mp he
    obtain ⟨hw1, _⟩ := (jsFalsyNum_false_iff west).mp hw
    rw [getHandler, if_neg (by simp [hn, hs, he, hw]), ← hn1, ← hs1, ← he1, ← hw1]
  constructor
  · by_cases hf : (jsFalsyNum north || jsFalsyNum south || jsFalsyNum east ||
        jsFalsyNum west) = true
    · simp [getHandler, postHandler, hf]
    · rw [hdeleg (by simpa using hf)]
  · intro hn hs he hw
    apply hdeleg
    simp [jsFalsyNum]
    cases north <;> cases south <;> cases east <;> cases west <;>
      simp_all [jsFalsyNum]

/-- Witness for C7 amended: on present non-zero bounds the two handlers
produce the identical response. -/
theorem get_post_equiv_amended_witness :
    getHandler (some 37) (some 36) (some 127) (some 126) (UpstreamResult.networkError "x") =
      postHandler (some 37) (some 36) (some 127) (some 126)
        (UpstreamResult.networkError "x") :=
  (get_post_equiv_amended (some 37) (some 36) (some 127) (some 126)
      (UpstreamResult.networkError "x")).2
    (by norm_num) (by norm_num) (by norm_num) (by norm_num)

/-- C8: an upstream failure (non-ok status or network error) on a
validated request yields the 500 response with error and details and no
road data, and on the client any non-success response leaves the display
untouched while raising exactly one alert. -/
theorem upstream_failure_handling (st : ClientState) (message : String) (status : ℕ)
    (n s e w : ℚ) (hn : n ≠ 0) (hs : s ≠ 0) (he : e ≠ 0) (hw : w ≠ 0)
    (h1 : s < n) (h2 : w < e) :
    postHandler (some n) (some s) (some e) (some w) (UpstreamResult.httpError status) =
      ⟨500, ApiBody.errorDetails upstreamFailMsg (overpassThrownMsg status)⟩ ∧
    postHandler (some n) (some s) (some e) (some w) (UpstreamResult.networkError message) =
      ⟨500, ApiBody.errorDetails upstreamFailMsg message⟩ ∧
    (∀ resp : ApiResponse, resp.status = 500 →
      (clientFetchStep st resp).1.mapLayers = st.mapLayers ∧
      (clientFetchStep st resp).1.roadsLayerGroup = st.roadsLayerGroup ∧
      (clientFetchStep st resp).1.roadData = st.roadData ∧
      (clientFetchStep st resp).1.alerts = st.alerts + 1 ∧
      (clientFetchStep st resp).2 = []) := by
  refine ⟨?_, ?_, ?_⟩
  · rw [postHandler_valid n s e w _ hn hs he hw h1 h2]; rfl
  · rw [postHandler_valid n s e w _ hn hs he hw h1 h2]; rfl
  · rintro ⟨stt, b⟩ h5
    simp only [ApiResponse.status] at h5
    subst h5
    cases b <;> exact ⟨rfl, rfl, rfl, rfl, rfl⟩

/-- Witness for C8: an upstream 504 on valid bounds produces the 500
error-with-details response. -/
theorem upstream_failure_handling_witness :
    postHandler (some 37) (some 36) (some 127) (some 126) (UpstreamResult.httpError 504) =
      ⟨500, ApiBody.errorDetails upstreamFailMsg (overpassThrownMsg 504)⟩ :=
  (upstream_failure_handling initialClientState "boom" 504 37 36 127 126
      (by norm_num) (by norm_num) (by norm_num) (by norm_num)
      (by norm_num) (by norm_num)).1

/-- C10: a polyline is drawn for a road exactly when its coordinates have
length at least 2; the backend can produce a zero-coordinate segment from
a way with an empty geometry list, which is skipped without any alert. -/
theorem polyline_drawn_iff (roads : List RoadData) (r : RoadData) (st : ClientState)
    (n s e w : ℚ) (c : ℕ) :
    (r ∈ drawnRoads roads ↔ r ∈ roads ∧ 2 ≤ r.coordinates.length) ∧
    drawPolylines roads = (drawnRoads roads).map mkPolyline ∧
    normalizeRoads [⟨"way", 2, some [("highway", "primary")], some []⟩] =
      [⟨2, "primary", "", [], [("highway", "primary")]⟩] ∧
    drawnRoads [⟨2, "primary", "", [], [("highway", "primary")]⟩] = [] ∧
    (clientFetchStep st ⟨200, ApiBody.success n s e w c roads⟩).1.alerts = st.alerts := by
  refine ⟨?_, rfl, rfl, rfl, ?_⟩
  · simp [drawnRoads, List.mem_filter, Nat.lt_iff_add_one_le]
  · cases hg : st.roadsLayerGroup <;> simp [clientFetchStep, hg]

end TrafficSim
